import Mathlib

/-!
Shallow embedding of the bank-api ledger core (Flask routes over SQLAlchemy
models) and proofs of the specification claims about it.

Sources embedded:
  app/models.py                     — data model (Account, Transaction, Budget,
                                      TransactionCategory, Bill)
  app/routes/accounts.py            — create_account, update_account
  app/routes/transactions.py        — create_transaction, get_transactions
  app/routes/budgets.py             — create_budget
  app/routes/bills.py               — update_bill

Modelling conventions:
  * Money (the DB's Numeric(10,2) columns and the 2-decimal fixed-point
    amounts that cross the API boundary) is embedded as ℤ, counting cents:
    every Numeric(10,2) value is an exact whole number of cents.
  * Primary keys and foreign keys are ℕ; autoincrement is an explicit
    nextId counter in the state.
  * Timestamps (created_at) are opaque ℕ values.
  * Calendar dates are a Date structure ordered lexicographically;
    datetime.datetime values are a Date plus a time-of-day ℕ;
    datetime.strptime with format %Y-%m-%d is the executable parser
    strptimeDate below.
  * Each route handler becomes a pure function from the database state and
    the request data to a result and the post-commit state.  An error
    return before db.session.commit() leaves the state unchanged (the
    session is discarded without committing).
-/

namespace BankApi

/-- A calendar date (what `datetime.strptime(s, "%Y-%m-%d")` produces,
restricted to its date part). -/
structure Date where
  y : ℕ
  m : ℕ
  d : ℕ
deriving DecidableEq, Repr

/-- Python date comparison: lexicographic on (year, month, day). -/
def Date.lt (a b : Date) : Bool :=
  a.y < b.y || (a.y == b.y && (a.m < b.m || (a.m == b.m && a.d < b.d)))

/-- A `datetime.datetime`: a date plus a time of day (in microseconds
since midnight; `strptime` with a date-only format yields midnight, 0). -/
structure DateTime where
  date : Date
  tod : ℕ
deriving DecidableEq, Repr

/-- Python datetime comparison: lexicographic on (date, time-of-day). -/
def DateTime.lt (a b : DateTime) : Bool :=
  Date.lt a.date b.date || (a.date == b.date && a.tod < b.tod)

/-- Days in a Gregorian month, as `datetime` validates them. -/
def daysInMonth (y m : ℕ) : ℕ :=
  if m == 2 then
    if y % 4 == 0 && (y % 100 != 0 || y % 400 == 0) then 29 else 28
  else if m == 4 || m == 6 || m == 9 || m == 11 then 30
  else 31

/-- Split a character list at every dash, keeping empty groups
(the char-level counterpart of `str.split("-")`). -/
def splitDash : List Char → List (List Char)
  | [] => [[]]
  | c :: cs =>
    let r := splitDash cs
    if c == '-' then [] :: r
    else
      match r with
      | [] => [[c]]
      | g :: gs => (c :: g) :: gs

/-- Read a nonempty all-digit character list as a number. -/
def digitsToNat? (cs : List Char) : Option ℕ :=
  if cs.isEmpty then none
  else if cs.all Char.isDigit then
    some (cs.foldl (fun n c => n * 10 + (c.toNat - 48)) 0)
  else none

/-- `datetime.strptime(s, "%Y-%m-%d")`, returning `none` where Python raises
`ValueError`: three dash-separated numeric fields where the year has
exactly 4 digits (CPython's %Y regex is four `\d`) and month/day have 1–2
digits (their regexes allow dropping the leading zero), month 1–12, day
within the month, and year ≥ 1 (the `datetime` constructor rejects
year 0). -/
def strptimeDate (s : String) : Option Date :=
  match splitDash s.data with
  | [ys, ms, ds] =>
    match digitsToNat? ys, digitsToNat? ms, digitsToNat? ds with
    | some y, some m, some d =>
      if ys.length == 4 && ms.length ≤ 2 && ds.length ≤ 2
          && 1 ≤ y && 1 ≤ m && m ≤ 12 && 1 ≤ d && d ≤ daysInMonth y m
      then some ⟨y, m, d⟩ else none
    | _, _, _ => none
  | _ => none

/-- app/models.py `Account`: id, user_id, account_type, account_number,
balance (Numeric(10,2) ↦ ℤ, in cents), created_at (opaque timestamp). -/
structure Account where
  id : ℕ
  user_id : ℕ
  account_type : String
  account_number : String
  balance : ℤ
  created_at : ℕ
deriving DecidableEq, Repr

/-- app/models.py `Transaction`: immutable transfer record. -/
structure Transaction where
  id : ℕ
  from_account_id : ℕ
  to_account_id : ℕ
  amount : ℤ
  type : String
  description : String
  created_at : ℕ
deriving DecidableEq, Repr

/-- The account/transaction tables plus their autoincrement counters. -/
structure BankState where
  accounts : List Account
  transactions : List Transaction
  nextAccountId : ℕ
  nextTransactionId : ℕ
deriving DecidableEq, Repr

/-- `Account.query.filter_by(id=i, user_id=uid).first()` — the scoped lookup
used for ownership enforcement. -/
def accountScopedLookup (st : BankState) (i uid : ℕ) : Option Account :=
  st.accounts.find? (fun a => a.id == i && a.user_id == uid)

/-- `Account.query.get(i)` — lookup by primary key only. -/
def accountById (st : BankState) (i : ℕ) : Option Account :=
  st.accounts.find? (fun a => a.id == i)

/-- `Account.query.filter_by(account_number=n).first()`. -/
def accountByNumber (st : BankState) (n : String) : Option Account :=
  st.accounts.find? (fun a => a.account_number == n)

/-- Typed errors of POST /transactions (routes/transactions.py
`create_transaction`), in source order. -/
inductive TransferError where
  | unauthorizedTransaction   -- 403 "Unauthorized transaction"
  | recipientNotFound         -- 404 "Recipient account not found"
  | invalidAmount             -- 400 "Invalid transaction amount. ..."
  | insufficientFunds         -- 403 "Insufficient funds in the source account."
  | sameAccountTransfer       -- 400 "Cannot transfer to the same account."
deriving DecidableEq, Repr

/-- routes/transactions.py `create_transaction` (POST /transactions):
scoped lookup of the source account, plain lookup of the recipient,
amount > 0, sufficient funds, distinct accounts; on success debit the
source, credit the recipient, append one Transaction row, commit. -/
def create_transaction (st : BankState) (user_id : ℕ)
    (from_account_id to_account_id : ℕ) (amount : ℤ)
    (type description : String) (now : ℕ) :
    Except TransferError Transaction × BankState :=
  match accountScopedLookup st from_account_id user_id with
  | none => (.error .unauthorizedTransaction, st)
  | some from_account =>
    match accountById st to_account_id with
    | none => (.error .recipientNotFound, st)
    | some to_account =>
      if amount ≤ 0 then (.error .invalidAmount, st)
      else if from_account.balance < amount then (.error .insufficientFunds, st)
      else if from_account.id == to_account.id then (.error .sameAccountTransfer, st)
      else
        let txn : Transaction :=
          { id := st.nextTransactionId
            from_account_id := from_account.id
            to_account_id := to_account.id
            amount := amount
            type := type
            description := description
            created_at := now }
        let accounts := st.accounts.map fun a =>
          if a.id == from_account.id then { a with balance := a.balance - amount }
          else if a.id == to_account.id then { a with balance := a.balance + amount }
          else a
        (.ok txn,
          { st with
              accounts := accounts
              transactions := st.transactions ++ [txn]
              nextTransactionId := st.nextTransactionId + 1 })

/-- Typed errors of the account routes (routes/accounts.py), in source order. -/
inductive AccountError where
  | invalidAccountNumber      -- 400 "Account number must be at least 10 digits and numeric."
  | duplicateAccountNumber    -- 400 "Account number already exists"
  | negativeStartBalance      -- 400 "Initial balance cannot be negative."
  | accountNotFound           -- 404 "Account not found"
  | invalidInput              -- 400 "Invalid input"
  | negativeBalance           -- 400 "Balance cannot be negative."
deriving DecidableEq, Repr

/-- Python `str.isdigit` restricted to ASCII digit strings: nonempty and
all characters are digits. -/
def isdigit (s : String) : Bool :=
  !s.data.isEmpty && s.data.all Char.isDigit

/-- routes/accounts.py `create_account` (POST /accounts): account number must
be numeric with at least 10 digits, then unused, then the optional starting
balance (default 0.0) must be nonnegative; on success append the new
Account row and commit. -/
def create_account (st : BankState) (user_id : ℕ)
    (account_type account_number : String) (balance? : Option ℤ) (now : ℕ) :
    Except AccountError Account × BankState :=
  if !(isdigit account_number) || account_number.length < 10 then
    (.error .invalidAccountNumber, st)
  else if (accountByNumber st account_number).isSome then
    (.error .duplicateAccountNumber, st)
  else
    let balance := balance?.getD 0
    if balance < 0 then (.error .negativeStartBalance, st)
    else
      let account : Account :=
        { id := st.nextAccountId
          user_id := user_id
          account_type := account_type
          account_number := account_number
          balance := balance
          created_at := now }
      (.ok account,
        { st with
            accounts := st.accounts ++ [account]
            nextAccountId := st.nextAccountId + 1 })

/-- routes/accounts.py `update_account` (PUT /accounts/<id>): scoped lookup,
reject an empty patch (`if not data`), overwrite account_type with the
supplied value when present (`data.get` with the current value as default),
and when a balance is supplied reject it if negative else overwrite; commit
replaces the mutated row. -/
def update_account (st : BankState) (user_id i : ℕ)
    (account_type? : Option String) (balance? : Option ℤ) :
    Except AccountError Account × BankState :=
  match accountScopedLookup st i user_id with
  | none => (.error .accountNotFound, st)
  | some account =>
    if account_type?.isNone && balance?.isNone then (.error .invalidInput, st)
    else
      let account1 := { account with account_type := account_type?.getD account.account_type }
      match balance? with
      | some b =>
        if b < 0 then (.error .negativeBalance, st)
        else
          let account2 := { account1 with balance := b }
          (.ok account2,
            { st with accounts := st.accounts.map fun a => if a.id == account.id then account2 else a })
      | none =>
        (.ok account1,
          { st with accounts := st.accounts.map fun a => if a.id == account.id then account1 else a })

/-- Outcome of GET /transactions: a transaction list, or the uncaught
SQLAlchemy exception (HTTP 500). -/
inductive GetTransactionsOutcome where
  | ok (txns : List Transaction)
  | ambiguousJoinError
deriving DecidableEq, Repr

/-- routes/transactions.py `get_transactions` (GET /transactions): the
handler's first statement after reading the query args builds
`Transaction.query.join(Account)`.  Transaction has two foreign keys to
account.id (from_account_id and to_account_id) and app/models.py defines no
relationship and the call passes no onclause, so SQLAlchemy cannot infer
the join condition and raises AmbiguousForeignKeysError while the query is
being constructed — before any of the user/account_id/date filters is
applied and regardless of the database contents.  Every call therefore
fails with HTTP 500, embedded as the `ambiguousJoinError` outcome. -/
def get_transactions (_st : BankState) (_user_id : ℕ)
    (_account_id : Option ℕ) (_start_date _end_date : Option ℕ) :
    GetTransactionsOutcome :=
  .ambiguousJoinError

/-- One call to a core mutating operation of the Account Ledger or the
Transaction Engine, with all its request data. -/
inductive Op where
  | createAccount (user_id : ℕ) (account_type account_number : String)
      (balance? : Option ℤ) (now : ℕ)
  | updateAccount (user_id i : ℕ) (account_type? : Option String) (balance? : Option ℤ)
  | transfer (user_id from_account_id to_account_id : ℕ) (amount : ℤ)
      (type description : String) (now : ℕ)
deriving Repr

/-- Apply one operation; a rejected call leaves the state unchanged (the
handler returns before `db.session.commit()`). -/
def applyOp (st : BankState) : Op → BankState
  | .createAccount uid ty num b? now => (create_account st uid ty num b? now).2
  | .updateAccount uid i ty? b? => (update_account st uid i ty? b?).2
  | .transfer uid f t amt ty d now => (create_transaction st uid f t amt ty d now).2

/-- The empty database: no rows, autoincrement counters at 1. -/
def initState : BankState := ⟨[], [], 1, 1⟩

/-- Run a sequence of operations from the empty database. -/
def run (ops : List Op) : BankState := ops.foldl applyOp initState

/-- app/models.py `Budget`: the stored dates are the parsed calendar dates
the Date columns hold. -/
structure Budget where
  id : ℕ
  user_id : ℕ
  name : String
  amount : ℤ
  start_date : Date
  end_date : Date
deriving DecidableEq, Repr

/-- The budget and category tables (`TransactionCategory` rows are their
unique names) plus the budget autoincrement counter. -/
structure BudgetState where
  categories : List String
  budgets : List Budget
  nextBudgetId : ℕ
deriving DecidableEq, Repr

/-- Typed errors of POST /budgets (routes/budgets.py), in source order.
Both date-range rejections ("Start date must be in the future." and
"Start date cannot be after end date.") are the spec's InvalidDateRange. -/
inductive BudgetError where
  | invalidAmount       -- 400 "Invalid amount. Amount must be greater than zero."
  | invalidDateRange    -- 400, either date-range message
  | invalidDateFormat   -- 400 "Invalid date format. Use YYYY-MM-DD."
deriving DecidableEq, Repr

/-- routes/budgets.py `create_budget` (POST /budgets): amount must be
positive; both dates are parsed (a ValueError on either is the format
error), the start must not be before now, the start must not be after the
end; then the category is fetched or created by name and the Budget row is
inserted bound to that category's name. -/
def create_budget (st : BudgetState) (user_id : ℕ) (name : String)
    (amount : ℤ) (start_date end_date : String) (now : DateTime) :
    Except BudgetError Budget × BudgetState :=
  if amount ≤ 0 then (.error .invalidAmount, st)
  else
    match strptimeDate start_date, strptimeDate end_date with
    | some s, some e =>
      if DateTime.lt ⟨s, 0⟩ now then (.error .invalidDateRange, st)
      else if Date.lt e s then (.error .invalidDateRange, st)
      else
        let categories :=
          if st.categories.contains name then st.categories
          else st.categories ++ [name]
        let budget : Budget :=
          { id := st.nextBudgetId
            user_id := user_id
            name := name
            amount := amount
            start_date := s
            end_date := e }
        (.ok budget,
          { categories := categories
            budgets := st.budgets ++ [budget]
            nextBudgetId := st.nextBudgetId + 1 })
    | _, _ => (.error .invalidDateFormat, st)

/-- app/models.py `Bill`: due_date is the calendar date the Date column
holds when the row is loaded. -/
structure Bill where
  id : ℕ
  user_id : ℕ
  biller_name : String
  due_date : Date
  amount : ℤ
  account_id : ℕ
deriving DecidableEq, Repr

/-- The bill table. -/
structure BillState where
  bills : List Bill
deriving DecidableEq, Repr

/-- Typed errors of PUT /bills/<id> (routes/bills.py), in source order. -/
inductive BillError where
  | billNotFound        -- 404 "Bill not found"
  | invalidAmount       -- 400 "Invalid amount. Amount must be greater than zero."
  | dueDateNotFuture    -- 400 "Due date must be in the future."
  | invalidDateFormat   -- 400 "Invalid date format. Use YYYY-MM-DD."
deriving DecidableEq, Repr

/-- Outcome of PUT /bills/<id>: a typed error, a committed update, or an
uncaught Python exception (HTTP 500). -/
inductive UpdateBillOutcome where
  | ok (bill : Bill) (st : BillState)
  | err (e : BillError)
  | typeError
deriving DecidableEq, Repr

/-- routes/bills.py `update_bill` (PUT /bills/<id>): scoped lookup, then the
merged amount (`data.get('amount', bill.amount)`) must be positive, then the
merged due date is passed to `datetime.strptime`.  When `due_date` is
supplied the merged value is a string and strptime parses it (ValueError is
caught as the format error); when it is omitted the merged value is
`bill.due_date`, the `datetime.date` object loaded from the Date column, and
`strptime` raises `TypeError: strptime() argument 1 must be str` — the
handler only catches ValueError, so the request crashes (HTTP 500), embedded
as the `typeError` outcome. -/
def update_bill (st : BillState) (user_id i : ℕ)
    (biller_name? : Option String) (due_date? : Option String)
    (amount? : Option ℤ) (now : DateTime) : UpdateBillOutcome :=
  match st.bills.find? (fun b => b.id == i && b.user_id == user_id) with
  | none => .err .billNotFound
  | some bill =>
    let amount := amount?.getD bill.amount
    if amount ≤ 0 then .err .invalidAmount
    else
      match due_date? with
      | some due_date =>
        match strptimeDate due_date with
        | none => .err .invalidDateFormat
        | some due_date_obj =>
          if DateTime.lt ⟨due_date_obj, 0⟩ now then .err .dueDateNotFuture
          else
            let bill1 :=
              { bill with
                  biller_name := biller_name?.getD bill.biller_name
                  due_date := due_date_obj
                  amount := amount }
            .ok bill1 ⟨st.bills.map fun b => if b.id == bill.id then bill1 else b⟩
      | none => .typeError

/-! ### Fixtures

Concrete rows for witnesses and counterexamples, following the spec's
example scenario: account A (id 1, user 1) with balance 1000.00 = 100000
cents, account B (id 2, user 2) with balance 0.00. -/

def acctA : Account :=
  { id := 1, user_id := 1, account_type := "checking"
    account_number := "1111111111", balance := 100000, created_at := 0 }

def acctB : Account :=
  { id := 2, user_id := 2, account_type := "checking"
    account_number := "2222222222", balance := 0, created_at := 0 }

def exSt : BankState := ⟨[acctA, acctB], [], 3, 1⟩

/-- The inductive invariant of the account table: nonnegative balances,
duplicate-free primary keys, and every key below the autoincrement
counter. -/
def Inv (st : BankState) : Prop :=
  (∀ a ∈ st.accounts, 0 ≤ a.balance) ∧
  (st.accounts.map Account.id).Nodup ∧
  (∀ a ∈ st.accounts, a.id < st.nextAccountId)

/-- Fixtures for C7: user 1 owns accounts 1 and 3 and the transaction table
is populated (transaction 1 from account 1 to account 2, transaction 2 from
account 3 to account 1), so the listing endpoint has data it should be able
to return. -/
def acctC : Account :=
  { id := 3, user_id := 1, account_type := "savings"
    account_number := "3333333333", balance := 20000, created_at := 0 }

def txn12 : Transaction := ⟨1, 1, 2, 15075, "transfer", "rent", 5⟩

def txn31 : Transaction := ⟨2, 3, 1, 100, "transfer", "", 6⟩

def exStList : BankState := ⟨[acctA, acctB, acctC], [txn12, txn31], 4, 3⟩

/-- Fixtures for C9: a stored bill of user 7 (id 1, amount 50.00, due
2024-12-15) loaded from the Date column as a `datetime.date`. -/
def exBill : Bill := ⟨1, 7, "Electric Company", ⟨2024, 12, 15⟩, 5000, 1⟩

def exBillState : BillState := ⟨[exBill]⟩

/-! ### Helper lemmas -/

theorem scopedLookup_spec {st : BankState} {i uid : ℕ} {a : Account}
    (h : accountScopedLookup st i uid = some a) :
    a ∈ st.accounts ∧ a.id = i ∧ a.user_id = uid := by
  have hm := List.mem_of_find?_eq_some h
  have hp := List.find?_some h
  simp only [Bool.and_eq_true, beq_iff_eq] at hp
  exact ⟨hm, hp.1, hp.2⟩

theorem accountById_spec {st : BankState} {i : ℕ} {a : Account}
    (h : accountById st i = some a) : a ∈ st.accounts ∧ a.id = i := by
  have hm := List.mem_of_find?_eq_some h
  have hp := List.find?_some h
  simp only [beq_iff_eq] at hp
  exact ⟨hm, hp⟩

theorem accountById_isSome_of_mem {st : BankState} {a : Account}
    (ha : a ∈ st.accounts) : (accountById st a.id).isSome := by
  rw [accountById, List.find?_isSome]
  exact ⟨a, ha, by simp⟩

/-! ### Claims -/

/-- C1: a successful `create_transaction` of amount A from account F to
account T debits F by A, credits T by A, appends exactly one Transaction
record referencing F.id → T.id with amount A, and leaves every other
account unchanged. -/
theorem transfer_success_postcondition
    (st : BankState) (uid fid tid : ℕ) (A : ℤ) (ty d : String) (now : ℕ)
    (txn : Transaction) (st' : BankState)
    (h : create_transaction st uid fid tid A ty d now = (.ok txn, st')) :
    txn.from_account_id = fid ∧ txn.to_account_id = tid ∧ txn.amount = A ∧
    st'.transactions = st.transactions ++ [txn] ∧
    (∀ a ∈ st.accounts, a.id = fid →
      { a with balance := a.balance - A } ∈ st'.accounts) ∧
    (∀ a ∈ st.accounts, a.id = tid →
      { a with balance := a.balance + A } ∈ st'.accounts) ∧
    (∀ a ∈ st.accounts, a.id ≠ fid → a.id ≠ tid → a ∈ st'.accounts) := by
  cases hf : accountScopedLookup st fid uid with
  | none => simp [create_transaction, hf] at h
  | some fa =>
    cases ht : accountById st tid with
    | none => simp [create_transaction, hf, ht] at h
    | some ta =>
      obtain ⟨-, hfa, -⟩ := scopedLookup_spec hf
      obtain ⟨-, hta⟩ := accountById_spec ht
      simp only [create_transaction, hf, ht] at h
      split at h
      · simp at h
      · split at h
        · simp at h
        · split at h
          · simp at h
          · rename_i hineq
            simp only [beq_iff_eq] at hineq
            simp only [Prod.mk.injEq, Except.ok.injEq] at h
            obtain ⟨htxn, hst⟩ := h
            subst htxn
            subst hst
            refine ⟨by simp [hfa], by simp [hta], rfl, rfl, ?_, ?_, ?_⟩
            · intro a ha hid
              have hc1 : (a.id == fa.id) = true := by simp [hid, hfa]
              have : (fun a : Account =>
                  if a.id == fa.id then { a with balance := a.balance - A }
                  else if a.id == ta.id then { a with balance := a.balance + A }
                  else a) a = { a with balance := a.balance - A } := by
                simp only [hc1, if_true]
              exact this ▸ List.mem_map_of_mem _ ha
            · intro a ha hid
              have hne : a.id ≠ fa.id := by
                rw [hid, hfa]
                intro hc
                exact hineq (by rw [hfa, hta, ← hc])
              have hc1 : (a.id == fa.id) = false := by simp [hne]
              have hc2 : (a.id == ta.id) = true := by simp [hid, hta]
              have : (fun a : Account =>
                  if a.id == fa.id then { a with balance := a.balance - A }
                  else if a.id == ta.id then { a with balance := a.balance + A }
                  else a) a = { a with balance := a.balance + A } := by
                simp only [hc1, hc2, if_true, if_false, Bool.false_eq_true]
              exact this ▸ List.mem_map_of_mem _ ha
            · intro a ha h1 h2
              have hc1 : (a.id == fa.id) = false := by simp [hfa ▸ h1]
              have hc2 : (a.id == ta.id) = false := by simp [hta ▸ h2]
              have : (fun a : Account =>
                  if a.id == fa.id then { a with balance := a.balance - A }
                  else if a.id == ta.id then { a with balance := a.balance + A }
                  else a) a = a := by
                simp only [hc1, hc2, if_false, Bool.false_eq_true]
              exact this ▸ List.mem_map_of_mem _ ha

/-- Witness for C1 at the spec's example scenario: transferring 150.75
(15075 cents) from account A (1000.00) to account B (0.00) leaves A at
849.25 = 84925 cents in the committed state. -/
theorem transfer_success_postcondition_witness :
    ({ acctA with balance := 100000 - 15075 } : Account) ∈
      (create_transaction exSt 1 1 2 15075 "transfer" "rent" 5).2.accounts := by
  have h := transfer_success_postcondition exSt 1 1 2 15075 "transfer" "rent" 5
    ⟨1, 1, 2, 15075, "transfer", "rent", 5⟩ _ rfl
  exact h.2.2.2.2.1 acctA (by simp [exSt]) rfl

/-- C3: `create_transaction` validates in exactly this order, first failing
check wins: (1) source account exists under the initiator else
unauthorizedTransaction, (2) recipient exists else recipientNotFound,
(3) amount > 0 else invalidAmount, (4) source balance ≥ amount else
insufficientFunds, (5) distinct accounts else sameAccountTransfer; in
particular an input failing both checks 4 and 5 yields insufficientFunds. -/
theorem transfer_validation_order
    (st : BankState) (uid fid tid : ℕ) (A : ℤ) (ty d : String) (now : ℕ) :
    (accountScopedLookup st fid uid = none →
      (create_transaction st uid fid tid A ty d now).1 = .error .unauthorizedTransaction) ∧
    ((accountScopedLookup st fid uid).isSome → accountById st tid = none →
      (create_transaction st uid fid tid A ty d now).1 = .error .recipientNotFound) ∧
    ((accountScopedLookup st fid uid).isSome → (accountById st tid).isSome → A ≤ 0 →
      (create_transaction st uid fid tid A ty d now).1 = .error .invalidAmount) ∧
    (∀ fa, accountScopedLookup st fid uid = some fa → (accountById st tid).isSome →
      0 < A → fa.balance < A →
      (create_transaction st uid fid tid A ty d now).1 = .error .insufficientFunds) ∧
    (∀ fa, accountScopedLookup st fid uid = some fa → (accountById st tid).isSome →
      0 < A → A ≤ fa.balance → fid = tid →
      (create_transaction st uid fid tid A ty d now).1 = .error .sameAccountTransfer) := by
  refine ⟨?_, ?_, ?_, ?_, ?_⟩
  · intro hf
    simp [create_transaction, hf]
  · intro hf ht
    obtain ⟨fa, hfa⟩ := Option.isSome_iff_exists.mp hf
    simp [create_transaction, hfa, ht]
  · intro hf ht hA
    obtain ⟨fa, hfa⟩ := Option.isSome_iff_exists.mp hf
    obtain ⟨ta, hta⟩ := Option.isSome_iff_exists.mp ht
    simp [create_transaction, hfa, hta, hA]
  · intro fa hfa ht hA hb
    obtain ⟨ta, hta⟩ := Option.isSome_iff_exists.mp ht
    simp [create_transaction, hfa, hta, hb, not_le.mpr hA]
  · intro fa hfa ht hA hb heq
    obtain ⟨ta, hta⟩ := Option.isSome_iff_exists.mp ht
    obtain ⟨-, hfid, -⟩ := scopedLookup_spec hfa
    obtain ⟨-, htid⟩ := accountById_spec hta
    have hids : fa.id = ta.id := by rw [hfid, htid, heq]
    simp [create_transaction, hfa, hta, not_le.mpr hA, not_lt.mpr hb, hids]

/-- Witness for C3: on the example ledger, a same-account transfer whose
amount 2000.00 also exceeds the 1000.00 balance fails with
insufficientFunds — check 4 wins over check 5. -/
theorem transfer_validation_order_witness :
    (create_transaction exSt 1 1 1 200000 "transfer" "" 5).1 =
      .error .insufficientFunds := by
  have h := transfer_validation_order exSt 1 1 1 200000 "transfer" "" 5
  exact h.2.2.2.1 acctA rfl (by decide) (by decide) (by decide)

/-- C4: every `create_transaction` call that returns an error leaves the
state unchanged — balances keep their pre-call values and no Transaction
record is created. -/
theorem transfer_error_frame
    (st : BankState) (uid fid tid : ℕ) (A : ℤ) (ty d : String) (now : ℕ)
    (e : TransferError)
    (h : (create_transaction st uid fid tid A ty d now).1 = .error e) :
    (create_transaction st uid fid tid A ty d now).2 = st := by
  cases hf : accountScopedLookup st fid uid with
  | none => simp [create_transaction, hf]
  | some fa =>
    cases ht : accountById st tid with
    | none => simp [create_transaction, hf, ht]
    | some ta =>
      simp only [create_transaction, hf, ht] at h ⊢
      split
      · rfl
      · split
        · rfl
        · split
          · rfl
          · rename_i h1 h2 h3
            simp [h1, h2, h3] at h

/-- Witness for C4: transferring 2000.00 out of account A (balance 1000.00)
fails with insufficientFunds and the committed state is the pre-call state. -/
theorem transfer_error_frame_witness :
    (create_transaction exSt 1 1 2 200000 "transfer" "" 5).2 = exSt :=
  transfer_error_frame exSt 1 1 2 200000 "transfer" "" 5 .insufficientFunds rfl

/-- C5, counterexample: the claim "a transfer with from_id = to_id (owned by
the initiator) always fails sameAccountTransfer regardless of the other
arguments" is false — with amount 0 the earlier check 3 wins and the call
fails invalidAmount instead. -/
theorem same_account_not_always_cex :
    (accountScopedLookup exSt 1 1).isSome ∧
    (create_transaction exSt 1 1 1 0 "transfer" "" 5).1 = .error .invalidAmount ∧
    (create_transaction exSt 1 1 1 0 "transfer" "" 5).1 ≠ .error .sameAccountTransfer := by
  refine ⟨rfl, rfl, ?_⟩
  intro hc
  exact TransferError.noConfusion (Except.error.inj hc)

/-- C5, amended: a transfer with from_id = to_id resolving to an account of
the initiator fails with sameAccountTransfer whenever the earlier checks
pass, i.e. whenever amount > 0 and the balance covers the amount; with other
arguments the earlier check's error (invalidAmount or insufficientFunds) is
returned instead, so a same-account transfer never succeeds. -/
theorem same_account_transfer_fails
    (st : BankState) (uid i : ℕ) (A : ℤ) (ty d : String) (now : ℕ)
    (fa : Account) (hfa : accountScopedLookup st i uid = some fa)
    (hA : 0 < A) (hb : A ≤ fa.balance) :
    (create_transaction st uid i i A ty d now).1 = .error .sameAccountTransfer := by
  obtain ⟨hmem, hfid, -⟩ := scopedLookup_spec hfa
  have ht : (accountById st i).isSome := hfid ▸ accountById_isSome_of_mem hmem
  obtain ⟨ta, hta⟩ := Option.isSome_iff_exists.mp ht
  obtain ⟨-, htid⟩ := accountById_spec hta
  have hids : fa.id = ta.id := by rw [hfid, htid]
  simp [create_transaction, hfa, hta, not_le.mpr hA, not_lt.mpr hb, hids]

/-- Witness for C5's amended claim: a same-account transfer of 100.00 on the
1000.00-balance account fails with sameAccountTransfer. -/
theorem same_account_transfer_fails_witness :
    (create_transaction exSt 1 1 1 10000 "transfer" "" 5).1 =
      .error .sameAccountTransfer :=
  same_account_transfer_fails exSt 1 1 10000 "transfer" "" 5 acctA rfl
    (by decide) (by decide)

theorem accountByNumber_exists {st : BankState} {num : String} :
    (accountByNumber st num).isSome = true ↔
      ∃ a ∈ st.accounts, a.account_number = num := by
  rw [accountByNumber, List.find?_isSome]
  simp

/-- Two accounts of a duplicate-free ledger with the same id are the same
row. -/
theorem account_eq_of_id_eq {l : List Account}
    (hnodup : (l.map Account.id).Nodup) {a b : Account}
    (ha : a ∈ l) (hb : b ∈ l) (hab : a.id = b.id) : a = b :=
  List.inj_on_of_nodup_map hnodup ha hb hab

/-- C6: `create_account` fails invalidAccountNumber iff the account number
is not all-numeric or shorter than 10 digits (checked first); otherwise it
fails duplicateAccountNumber iff some existing account already uses the
number; otherwise it fails on a negative starting balance iff the supplied
balance (default 0) is negative. -/
theorem create_account_error_order
    (st : BankState) (uid : ℕ) (ty num : String) (b? : Option ℤ) (now : ℕ) :
    ((create_account st uid ty num b? now).1 = .error .invalidAccountNumber ↔
      ¬(isdigit num = true ∧ 10 ≤ num.length)) ∧
    (isdigit num = true → 10 ≤ num.length →
      ((create_account st uid ty num b? now).1 = .error .duplicateAccountNumber ↔
        ∃ a ∈ st.accounts, a.account_number = num)) ∧
    (isdigit num = true → 10 ≤ num.length →
      (¬∃ a ∈ st.accounts, a.account_number = num) →
      ((create_account st uid ty num b? now).1 = .error .negativeStartBalance ↔
        b?.getD 0 < 0)) := by
  by_cases hv : (!(isdigit num) || decide (num.length < 10)) = true
  · have hbad : ¬(isdigit num = true ∧ 10 ≤ num.length) := by
      rcases Bool.or_eq_true_iff.mp hv with h | h
      · rintro ⟨h1, -⟩
        simp [h1] at h
      · rintro ⟨-, h2⟩
        exact absurd (of_decide_eq_true h) (not_lt.mpr h2)
    refine ⟨by simp [create_account, hv, hbad], ?_, ?_⟩
    · intro h1 h2
      exact absurd ⟨h1, h2⟩ hbad
    · intro h1 h2 _
      exact absurd ⟨h1, h2⟩ hbad
  · have hgood : isdigit num = true ∧ 10 ≤ num.length := by
      simp only [Bool.or_eq_true, not_or, Bool.not_eq_true', decide_eq_true_eq] at hv
      exact ⟨by simpa using hv.1, not_lt.mp hv.2⟩
    have hlen := not_lt.mpr hgood.2
    by_cases hdup : (accountByNumber st num).isSome = true
    · have hex := accountByNumber_exists.mp hdup
      refine ⟨?_, ?_, ?_⟩
      · simp [create_account, hgood.1, hlen, hdup]
      · intro _ _
        simp [create_account, hgood.1, hlen, hdup, hex]
      · intro _ _ hnone
        exact absurd hex hnone
    · have hnoex : ¬∃ a ∈ st.accounts, a.account_number = num := fun hex =>
        hdup (accountByNumber_exists.mpr hex)
      by_cases hb : b?.getD 0 < 0
      · refine ⟨?_, ?_, ?_⟩
        · simp [create_account, hgood.1, hlen, hdup, hb]
        · intro _ _
          simp [create_account, hgood.1, hlen, hdup, hb, hnoex]
        · intro _ _ _
          simp [create_account, hgood.1, hlen, hdup, hb]
      · refine ⟨?_, ?_, ?_⟩
        · simp [create_account, hgood.1, hlen, hdup, hb]
        · intro _ _
          simp [create_account, hgood.1, hlen, hdup, hb, hnoex]
        · intro _ _ _
          simp [create_account, hgood.1, hlen, hdup, hb]

/-- Witness for C6 at the spec's example: "12345" is numeric but has only 5
digits, so `create_account` fails invalidAccountNumber. -/
theorem create_account_error_order_witness :
    (create_account exSt 3 "savings" "12345" none 9).1 =
      .error .invalidAccountNumber :=
  (create_account_error_order exSt 3 "savings" "12345" none 9).1.mpr
    (by decide)

/-- C10: a successful `update_account` only changes the patched account's
account_type and balance (to the supplied values when present, otherwise
keeping the stored ones); its id, user_id, account_number and created_at are
unchanged, no account is created or deleted, every other account is
unchanged, and the transaction table is untouched. -/
theorem update_account_frame
    (st : BankState) (uid i : ℕ) (ty? : Option String) (b? : Option ℤ)
    (acc : Account) (st' : BankState)
    (hnodup : (st.accounts.map Account.id).Nodup)
    (h : update_account st uid i ty? b? = (.ok acc, st')) :
    st'.transactions = st.transactions ∧
    st'.accounts.length = st.accounts.length ∧
    (∀ a ∈ st.accounts, a.id ≠ i → a ∈ st'.accounts) ∧
    (∀ a ∈ st.accounts, a.id = i →
      ({ a with account_type := ty?.getD a.account_type,
                balance := b?.getD a.balance } ∈ st'.accounts)) := by
  cases hf : accountScopedLookup st i uid with
  | none => simp [update_account, hf] at h
  | some account =>
    obtain ⟨hmem, hid, -⟩ := scopedLookup_spec hf
    cases b? with
    | some b =>
      by_cases hbneg : b < 0
      · simp [update_account, hf, hbneg] at h
      · simp only [update_account, hf, Option.isNone_some, Bool.and_false,
          Bool.false_eq_true, if_false, if_neg hbneg, Prod.mk.injEq,
          Except.ok.injEq] at h
        obtain ⟨-, hst⟩ := h
        subst hst
        refine ⟨rfl, by simp, ?_, ?_⟩
        · intro a ha hne
          have hc : (a.id == account.id) = false := by simp [hid ▸ hne]
          have himg : (fun a : Account =>
              if a.id == account.id then
                { account with
                    account_type := ty?.getD account.account_type
                    balance := b }
              else a) a = a := by simp [hc]
          exact himg ▸ List.mem_map_of_mem _ ha
        · intro a ha haid
          have haeq : a = account :=
            account_eq_of_id_eq hnodup ha hmem (by rw [haid, hid])
          have hc : (a.id == account.id) = true := by simp [haeq]
          have himg : (fun a : Account =>
              if a.id == account.id then
                { account with
                    account_type := ty?.getD account.account_type
                    balance := b }
              else a) a =
              { a with account_type := ty?.getD a.account_type,
                       balance := (some b).getD a.balance } := by
            simp [hc, haeq]
          exact himg ▸ List.mem_map_of_mem _ ha
    | none =>
      cases ty? with
      | none => simp [update_account, hf] at h
      | some ty =>
        simp only [update_account, hf, Option.isNone_some, Option.isNone_none,
          Bool.false_and, Bool.false_eq_true, if_false, Prod.mk.injEq,
          Except.ok.injEq] at h
        obtain ⟨-, hst⟩ := h
        subst hst
        refine ⟨rfl, by simp, ?_, ?_⟩
        · intro a ha hne
          have hc : (a.id == account.id) = false := by simp [hid ▸ hne]
          have himg : (fun a : Account =>
              if a.id == account.id then
                { account with account_type := (some ty).getD account.account_type }
              else a) a = a := by simp [hc]
          exact himg ▸ List.mem_map_of_mem _ ha
        · intro a ha haid
          have haeq : a = account :=
            account_eq_of_id_eq hnodup ha hmem (by rw [haid, hid])
          have hc : (a.id == account.id) = true := by simp [haeq]
          have himg : (fun a : Account =>
              if a.id == account.id then
                { account with account_type := (some ty).getD account.account_type }
              else a) a =
              { a with account_type := (some ty).getD a.account_type,
                       balance := (none : Option ℤ).getD a.balance } := by
            simp [hc, haeq]
          exact himg ▸ List.mem_map_of_mem _ ha

/-- Witness for C10: patching account A with type "Savings" and balance
500 cents leaves a ledger containing A with exactly those two fields
changed. -/
theorem update_account_frame_witness :
    ({ acctA with account_type := "Savings", balance := 500 } : Account) ∈
      (update_account exSt 1 1 (some "Savings") (some 500)).2.accounts := by
  have h := update_account_frame exSt 1 1 (some "Savings") (some 500)
    { acctA with account_type := "Savings", balance := 500 } _
    (by decide) rfl
  exact h.2.2.2 acctA (by simp [exSt]) rfl

theorem inv_initState : Inv initState := by
  refine ⟨?_, ?_, ?_⟩ <;> simp [initState]

/-- The transfer's balance rewrite does not touch primary keys. -/
theorem transfer_map_ids (l : List Account) (fa ta : Account) (A : ℤ) :
    List.map Account.id (l.map fun a =>
      if a.id == fa.id then { a with balance := a.balance - A }
      else if a.id == ta.id then { a with balance := a.balance + A }
      else a) = List.map Account.id l := by
  rw [List.map_map]
  refine List.map_congr_left fun a _ => ?_
  by_cases h1 : (a.id == fa.id) = true
  · simp only [Function.comp_apply, h1, if_true]
  · by_cases h2 : (a.id == ta.id) = true
    · simp only [Function.comp_apply, h1, h2, if_true, if_false, Bool.false_eq_true]
    · simp only [Function.comp_apply, h1, h2, if_false, Bool.false_eq_true]

/-- The update's row replacement does not touch primary keys. -/
theorem update_map_ids (l : List Account) (acc new : Account)
    (hnew : new.id = acc.id) :
    List.map Account.id (l.map fun a => if a.id == acc.id then new else a) =
      List.map Account.id l := by
  rw [List.map_map]
  refine List.map_congr_left fun a h1 => ?_
  by_cases h1 : (a.id == acc.id) = true
  · simp only [Function.comp_apply, h1, if_true]
    rw [hnew, beq_iff_eq.mp h1]
  · simp only [Function.comp_apply, h1, if_false, Bool.false_eq_true]

theorem inv_create_account (st : BankState) (uid : ℕ) (ty num : String)
    (b? : Option ℤ) (now : ℕ) (h : Inv st) :
    Inv (create_account st uid ty num b? now).2 := by
  obtain ⟨hbal, hnodup, hlt⟩ := h
  by_cases hv : (!(isdigit num) || decide (num.length < 10)) = true
  · simp only [create_account, hv, if_true]
    exact ⟨hbal, hnodup, hlt⟩
  · by_cases hdup : (accountByNumber st num).isSome = true
    · simp only [create_account, hv, if_false, hdup, if_true, Bool.false_eq_true]
      exact ⟨hbal, hnodup, hlt⟩
    · by_cases hb : b?.getD 0 < 0
      · simp only [create_account, hv, if_false, hdup, hb, if_true, Bool.false_eq_true]
        exact ⟨hbal, hnodup, hlt⟩
      · simp only [create_account, hv, if_false, hdup, hb, Bool.false_eq_true]
        refine ⟨?_, ?_, ?_⟩
        · intro a ha
          rcases List.mem_append.mp ha with ha | ha
          · exact hbal a ha
          · rcases List.mem_singleton.mp ha with rfl
            exact not_lt.mp hb
        · rw [List.map_append, List.nodup_append]
          refine ⟨hnodup, List.nodup_singleton _, ?_⟩
          intro x hx hx'
          rcases List.mem_map.mp hx with ⟨a, ha, rfl⟩
          rcases List.mem_singleton.mp hx' with h'
          exact absurd (h' ▸ hlt a ha) (lt_irrefl _)
        · intro a ha
          rcases List.mem_append.mp ha with ha | ha
          · exact Nat.lt_succ_of_lt (hlt a ha)
          · rcases List.mem_singleton.mp ha with rfl
            exact Nat.lt_succ_self _

theorem inv_update_account (st : BankState) (uid i : ℕ)
    (ty? : Option String) (b? : Option ℤ) (h : Inv st) :
    Inv (update_account st uid i ty? b?).2 := by
  obtain ⟨hbal, hnodup, hlt⟩ := h
  cases hf : accountScopedLookup st i uid with
  | none =>
    simp only [update_account, hf]
    exact ⟨hbal, hnodup, hlt⟩
  | some account =>
    obtain ⟨hmem, -, -⟩ := scopedLookup_spec hf
    cases b? with
    | some b =>
      by_cases hb : b < 0
      · simp only [update_account, hf, Option.isNone_some, Bool.and_false,
          Bool.false_eq_true, if_false, if_pos hb]
        exact ⟨hbal, hnodup, hlt⟩
      · simp only [update_account, hf, Option.isNone_some, Bool.and_false,
          Bool.false_eq_true, if_false, if_neg hb]
        refine ⟨?_, ?_, ?_⟩
        · intro x hx
          rcases List.mem_map.mp hx with ⟨a, ha, rfl⟩
          by_cases hc : (a.id == account.id) = true
          · simp only [hc, if_true]
            exact not_lt.mp hb
          · simp only [hc, if_false, Bool.false_eq_true]
            exact hbal a ha
        · rw [update_map_ids st.accounts account
            { account with account_type := ty?.getD account.account_type, balance := b } rfl]
          exact hnodup
        · intro x hx
          rcases List.mem_map.mp hx with ⟨a, ha, rfl⟩
          by_cases hc : (a.id == account.id) = true
          · simp only [hc, if_true]
            exact hlt account hmem
          · simp only [hc, if_false, Bool.false_eq_true]
            exact hlt a ha
    | none =>
      cases ty? with
      | none =>
        simp only [update_account, hf, Option.isNone_none, Bool.and_true, if_true]
        exact ⟨hbal, hnodup, hlt⟩
      | some ty =>
        simp only [update_account, hf, Option.isNone_some, Option.isNone_none,
          Bool.false_and, Bool.false_eq_true, if_false]
        refine ⟨?_, ?_, ?_⟩
        · intro x hx
          rcases List.mem_map.mp hx with ⟨a, ha, rfl⟩
          by_cases hc : (a.id == account.id) = true
          · simp only [hc, if_true]
            exact hbal account hmem
          · simp only [hc, if_false, Bool.false_eq_true]
            exact hbal a ha
        · rw [update_map_ids st.accounts account
            { account with account_type := (some ty).getD account.account_type } rfl]
          exact hnodup
        · intro x hx
          rcases List.mem_map.mp hx with ⟨a, ha, rfl⟩
          by_cases hc : (a.id == account.id) = true
          · simp only [hc, if_true]
            exact hlt account hmem
          · simp only [hc, if_false, Bool.false_eq_true]
            exact hlt a ha

theorem inv_create_transaction (st : BankState) (uid fid tid : ℕ) (A : ℤ)
    (ty d : String) (now : ℕ) (h : Inv st) :
    Inv (create_transaction st uid fid tid A ty d now).2 := by
  obtain ⟨hbal, hnodup, hlt⟩ := h
  cases hf : accountScopedLookup st fid uid with
  | none =>
    simp only [create_transaction, hf]
    exact ⟨hbal, hnodup, hlt⟩
  | some fa =>
    cases ht : accountById st tid with
    | none =>
      simp only [create_transaction, hf, ht]
      exact ⟨hbal, hnodup, hlt⟩
    | some ta =>
      obtain ⟨hfmem, -, -⟩ := scopedLookup_spec hf
      simp only [create_transaction, hf, ht]
      split
      · exact ⟨hbal, hnodup, hlt⟩
      · split
        · exact ⟨hbal, hnodup, hlt⟩
        · split
          · exact ⟨hbal, hnodup, hlt⟩
          · rename_i hA hfb _
            refine ⟨?_, ?_, ?_⟩
            · intro x hx
              rcases List.mem_map.mp hx with ⟨a, ha, rfl⟩
              by_cases hc1 : (a.id == fa.id) = true
              · simp only [hc1, if_true]
                have haeq : a = fa :=
                  account_eq_of_id_eq hnodup ha hfmem (beq_iff_eq.mp hc1)
                rw [haeq]
                exact sub_nonneg.mpr (not_lt.mp hfb)
              · by_cases hc2 : (a.id == ta.id) = true
                · simp only [hc1, hc2, if_true, if_false, Bool.false_eq_true]
                  exact add_nonneg (hbal a ha) (le_of_lt (not_le.mp hA))
                · simp only [hc1, hc2, if_false, Bool.false_eq_true]
                  exact hbal a ha
            · rw [transfer_map_ids]
              exact hnodup
            · intro x hx
              rcases List.mem_map.mp hx with ⟨a, ha, rfl⟩
              by_cases hc1 : (a.id == fa.id) = true
              · simp only [hc1, if_true]
                exact hlt a ha
              · by_cases hc2 : (a.id == ta.id) = true
                · simp only [hc1, hc2, if_true, if_false, Bool.false_eq_true]
                  exact hlt a ha
                · simp only [hc1, hc2, if_false, Bool.false_eq_true]
                  exact hlt a ha

theorem inv_applyOp (st : BankState) (op : Op) (h : Inv st) :
    Inv (applyOp st op) := by
  cases op with
  | createAccount uid ty num b? now => exact inv_create_account st uid ty num b? now h
  | updateAccount uid i ty? b? => exact inv_update_account st uid i ty? b? h
  | transfer uid f t amt ty d now => exact inv_create_transaction st uid f t amt ty d now h

theorem inv_foldl (ops : List Op) (st : BankState) (h : Inv st) :
    Inv (ops.foldl applyOp st) := by
  induction ops generalizing st with
  | nil => exact h
  | cons op ops ih => exact ih _ (inv_applyOp st op h)

/-- C2: after any sequence of the core mutating operations run from the
empty database, every account's balance is nonnegative (invariant I1) —
create_account rejects a negative starting balance, update_account rejects
a negative patched balance, and create_transaction rejects amounts
exceeding the source balance. -/
theorem balances_nonneg_reachable (ops : List Op) :
    ∀ a ∈ (run ops).accounts, 0 ≤ a.balance :=
  (inv_foldl ops initState inv_initState).1

/-- Witness for C2: after creating an account with 50.00 and transferring
all of it away, the drained source account has balance 0, still ≥ 0. -/
theorem balances_nonneg_reachable_witness :
    (0 : ℤ) ≤ (Account.mk 1 1 "checking" "1111111111" 0 0).balance :=
  balances_nonneg_reachable
    [.createAccount 1 "checking" "1111111111" (some 5000) 0,
     .createAccount 2 "savings" "2222222222" none 0,
     .transfer 1 1 2 5000 "transfer" "" 1]
    (Account.mk 1 1 "checking" "1111111111" 0 0) (by decide)

/-- C7: `get_transactions` never returns the ownership-scoped transaction
list the claim describes — on a populated ledger (user 1 owns accounts 1
and 3, transactions exist out of and into account 1), listing user 1's
transactions filtered by account 1 ends in the uncaught
AmbiguousForeignKeysError outcome (HTTP 500), because the source's
`Transaction.query.join(Account)` has two candidate foreign keys and no
join condition can be inferred; the unfiltered listing crashes the same
way. -/
theorem list_transactions_always_crashes :
    get_transactions exStList 1 (some 1) none none = .ambiguousJoinError ∧
    get_transactions exStList 1 none none none = .ambiguousJoinError :=
  ⟨rfl, rfl⟩

/-- C8, counterexample: the claim "create_budget fails InvalidDateRange
when start_date is not strictly in the future at creation time" is false at
the boundary — with the clock exactly at midnight of the start date, the
start is not strictly in the future (`DateTime.lt now start = false`), yet
the source's `start_date_obj < datetime.now()` check passes and the budget
is created. -/
theorem create_budget_boundary_cex :
    DateTime.lt ⟨⟨2024, 1, 1⟩, 0⟩ ⟨⟨2024, 1, 1⟩, 0⟩ = false ∧
    (create_budget ⟨[], [], 1⟩ 7 "Groceries" 100 "2024-01-01" "2024-01-31"
        ⟨⟨2024, 1, 1⟩, 0⟩).1 =
      .ok ⟨1, 7, "Groceries", 100, ⟨2024, 1, 1⟩, ⟨2024, 1, 31⟩⟩ :=
  ⟨rfl, rfl⟩

/-- C8, amended: `create_budget` fails invalidAmount iff amount ≤ 0; given a
positive amount and well-formed dates it fails invalidDateRange iff the
start datetime is strictly before the creation time or the end date is
before the start date (a start exactly equal to the creation instant is
accepted); otherwise it succeeds, resolving the named category or creating
it if absent — category names stay duplicate-free and the budget's name
resolves to a stored category (I5). -/
theorem create_budget_validation (st : BudgetState) (uid : ℕ) (name : String)
    (A : ℤ) (sd ed : String) (now : DateTime) :
    ((create_budget st uid name A sd ed now).1 = .error .invalidAmount ↔ A ≤ 0) ∧
    (0 < A → ∀ s e, strptimeDate sd = some s → strptimeDate ed = some e →
      ((create_budget st uid name A sd ed now).1 = .error .invalidDateRange ↔
        (DateTime.lt ⟨s, 0⟩ now = true ∨ Date.lt e s = true))) ∧
    (0 < A → ∀ s e, strptimeDate sd = some s → strptimeDate ed = some e →
      DateTime.lt ⟨s, 0⟩ now = false → Date.lt e s = false →
      ∃ b st', create_budget st uid name A sd ed now = (.ok b, st') ∧
        b.name = name ∧
        st'.categories =
          (if st.categories.contains name then st.categories
           else st.categories ++ [name]) ∧
        b.name ∈ st'.categories ∧
        (st.categories.Nodup → st'.categories.Nodup) ∧
        st'.budgets = st.budgets ++ [b]) := by
  by_cases hA : A ≤ 0
  · refine ⟨by simp [create_budget, hA], ?_, ?_⟩
    · intro hA' _ _ _ _
      exact absurd hA (not_le.mpr hA')
    · intro hA' _ _ _ _ _ _
      exact absurd hA (not_le.mpr hA')
  · have hne : ¬ A ≤ 0 := hA
    refine ⟨?_, ?_, ?_⟩
    · simp only [create_budget, if_neg hne]
      constructor
      · intro h
        exfalso
        cases hsd : strptimeDate sd with
        | none => simp [hsd] at h
        | some s =>
          cases hed : strptimeDate ed with
          | none => simp [hsd, hed] at h
          | some e =>
            simp only [hsd, hed] at h
            split at h
            · simp at h
            · split at h
              · simp at h
              · simp at h
      · intro h
        exact absurd h hne
    · intro hA' s e hsd hed
      simp only [create_budget, if_neg hne, hsd, hed]
      by_cases h1 : DateTime.lt ⟨s, 0⟩ now = true
      · simp [h1]
      · by_cases h2 : Date.lt e s = true
        · simp [h1, h2]
        · simp [h1, h2]
    · intro hA' s e hsd hed h1 h2
      have heq : create_budget st uid name A sd ed now =
          (.ok ⟨st.nextBudgetId, uid, name, A, s, e⟩,
            ⟨(if st.categories.contains name then st.categories
              else st.categories ++ [name]),
             st.budgets ++ [⟨st.nextBudgetId, uid, name, A, s, e⟩],
             st.nextBudgetId + 1⟩) := by
        simp only [create_budget, if_neg hne, hsd, hed, h1, Bool.false_eq_true,
          if_false, h2]
      refine ⟨_, _, heq, rfl, rfl, ?_, ?_, rfl⟩
      · by_cases hc : st.categories.contains name
        · simp only [hc, if_true]
          exact List.mem_of_elem_eq_true hc
        · simp only [hc, if_false, Bool.false_eq_true]
          exact List.mem_append_right _ (List.mem_singleton_self _)
      · intro hnodup
        by_cases hc : st.categories.contains name
        · have hmem : name ∈ st.categories := List.mem_of_elem_eq_true hc
          simpa [hmem] using hnodup
        · have hnm : name ∉ st.categories := fun hm =>
            hc (List.elem_eq_true_of_mem hm)
          simp only [hc, if_false, Bool.false_eq_true]
          rw [List.nodup_append]
          exact ⟨hnodup, List.nodup_singleton _,
            fun x hx hx' => hnm ((List.mem_singleton.mp hx') ▸ hx)⟩

/-- Witness for C8's amended claim: a budget whose start date 2024-01-01 is
strictly before the creation time (noon of 2024-06-01) fails with the
invalid-date-range error. -/
theorem create_budget_validation_witness :
    (create_budget ⟨[], [], 1⟩ 7 "Groceries" 100 "2024-01-01" "2024-01-31"
        ⟨⟨2024, 6, 1⟩, 0⟩).1 = .error .invalidDateRange := by
  have h := (create_budget_validation ⟨[], [], 1⟩ 7 "Groceries" 100
    "2024-01-01" "2024-01-31" ⟨⟨2024, 6, 1⟩, 0⟩).2.1
    (by decide) ⟨2024, 1, 1⟩ ⟨2024, 1, 31⟩ (by decide) (by decide)
  exact h.mpr (Or.inl (by decide))

/-- C9: an `update_bill` call that omits due_date does not fail or succeed
per the validation rules — it crashes: the merged due date is the stored
`datetime.date` object, `datetime.strptime` raises TypeError on it, and the
handler catches only ValueError.  Here user 7 patches only the amount of
their existing bill 1 and the call ends in the uncaught-TypeError outcome
instead of a typed result. -/
theorem update_bill_omitted_due_date_crashes :
    update_bill exBillState 7 1 none none (some 50) ⟨⟨2024, 1, 1⟩, 0⟩ =
      .typeError := rfl

end BankApi
